import Mathlib

/-!
Shallow embedding of the `LoadSim` catalog/loader (loadsim.py) together with
theorems checking the specification's claims against it.

Modelling conventions:
* A directory is a `List String` of the file names it contains, in the
  (arbitrary) order the filesystem enumerates them.
* Python exceptions are the `PyErr` inductive; fallible code returns `Except`.
* Numeric scalars coming out of the external binary decoder are modelled as
  rationals; the claims under check only combine them structurally
  (subtraction, copying), never through rounding behaviour.
* The two external collaborators (the `athinput` configuration parser and the
  `athdf` binary decoder) are out of scope per the specification and are passed
  in as total oracles producing structured values that match their documented
  contracts.
* `print`-based warnings are collected into a returned list of strings.
-/

namespace PyAthena

/-- Python exception kinds that the embedded code can raise.  `exception msg`
is a plain `Exception(msg)`; the others are the named builtin exceptions. -/
inductive PyErr where
  | fileNotFound
  | exception : String → PyErr
  | typeError
  | valueError
  | indexError
deriving DecidableEq, Repr

/-- An entry of the `files` dict: either still a list of matched paths
(unresolved role) or a single bare path (resolved role). -/
inductive FileSetEntry where
  | paths : List String → FileSetEntry
  | single : String → FileSetEntry
deriving DecidableEq, Repr

/-- Result of the external `athinput` configuration parser, restricted to the
sections the code reads: `['job']['problem_id']` and `['mesh']`.  The parser
collaborator guarantees these keys per the external-interface contract. -/
structure AthInput where
  job_problem_id : String
  mesh : List (String × String)
deriving DecidableEq, Repr

/-- The `LoadSim` object after `__init__`: the catalog.  Attributes that
Python only conditionally assigns (`athinput`, `problem_id`, `mesh`) are
`Option`s, `none` meaning the attribute is absent. -/
structure Catalog where
  basedir : String
  basename : String
  files_athinput : FileSetEntry
  files_hst : FileSetEntry
  files_athdf : FileSetEntry
  files_rst : FileSetEntry
  athinput : Option AthInput
  problem_id : Option String
  mesh : Option (List (String × String))
  nums : List Int
deriving DecidableEq, Repr

/-- A 3-d numeric array (z, y, x index order) as nested lists. -/
abbrev Arr := List (List (List Rat))

/-- A heterogeneous attribute value of the output dataset. -/
inductive AttrVal where
  | i : Int → AttrVal
  | r : Rat → AttrVal
  | li : List Int → AttrVal
  | lr : List Rat → AttrVal
deriving DecidableEq, Repr

/-- The labelled dataset returned by `load_athdf`: three coordinate axes, the
data variables (name, dims, array), and the attribute mapping in insertion
order. -/
structure Dataset where
  coord_x : List Rat
  coord_y : List Rat
  coord_z : List Rat
  data_vars : List (String × List String × Arr)
  attrs : List (String × AttrVal)
deriving DecidableEq, Repr

/-- The flat raw table produced by the external `athdf` binary decoder for one
snapshot file, with the keys the code reads. -/
structure RawData where
  VariableNames : List String
  varData : String → Arr
  x1v : List Rat
  x2v : List Rat
  x3v : List Rat
  x1f : List Rat
  x2f : List Rat
  x3f : List Rat
  MaxLevel : Int
  MeshBlockSize : List Int
  NumCycles : Int
  NumMeshBlocks : Int
  RootGridSize : List Int
  RootGridX1 : List Rat
  RootGridX2 : List Rat
  RootGridX3 : List Rat
  Time : Rat

instance : DecidableEq (Except PyErr Dataset) := fun a b =>
  match a, b with
  | Except.error e, Except.error f =>
    if h : e = f then Decidable.isTrue (by rw [h])
    else Decidable.isFalse (by intro hh; injection hh; contradiction)
  | Except.ok x, Except.ok y =>
    if h : x = y then Decidable.isTrue (by rw [h])
    else Decidable.isFalse (by intro hh; injection hh; contradiction)
  | Except.error _, Except.ok _ => Decidable.isFalse (by intro hh; injection hh)
  | Except.ok _, Except.error _ => Decidable.isFalse (by intro hh; injection hh)

instance : DecidableEq (Except PyErr Catalog) := fun a b =>
  match a, b with
  | Except.error e, Except.error f =>
    if h : e = f then Decidable.isTrue (by rw [h])
    else Decidable.isFalse (by intro hh; injection hh; contradiction)
  | Except.ok x, Except.ok y =>
    if h : x = y then Decidable.isTrue (by rw [h])
    else Decidable.isFalse (by intro hh; injection hh; contradiction)
  | Except.error _, Except.ok _ => Decidable.isFalse (by intro hh; injection hh)
  | Except.ok _, Except.error _ => Decidable.isFalse (by intro hh; injection hh)

/-- Boolean test that string `suf` is a suffix of string `nm`. -/
def strEndsWith (suf nm : String) : Bool := decide (suf.data <:+ nm.data)

/-- Boolean test that string `pre` is a prefix of string `nm`. -/
def strStartsWith (pre nm : String) : Bool := decide (pre.data <+: nm.data)

/-- Glob for a pattern of the form `*<suf>` in a directory listing.
(`pathlib.Path.glob` wildcards do match leading dots, unlike the `glob`
module, so this is a pure suffix test.) -/
def globSuffixPat (suf : String) (listing : List String) : List String :=
  listing.filter (fun nm => strEndsWith suf nm)

/-- Glob for the pattern `athinput.*` in a directory listing. -/
def globAthinputPat (listing : List String) : List String :=
  listing.filter (fun nm => strStartsWith ("athinput.") nm)

/-- Lexicographic (code-point) comparison of character lists, as Python
compares the path strings when `sorted` is applied to them. -/
def charsLe : List Char → List Char → Bool
  | [], _ => true
  | _ :: _, [] => false
  | a :: as, b :: bs => if a < b then true else if b < a then false else charsLe as bs

/-- String comparison used by `sorted` on paths. -/
def strLeB (a b : String) : Bool := charsLe a.data b.data

/-- Stable insertion of `x` into a list, keeping `x` before later equals. -/
def insertLe (le : String → String → Bool) (x : String) : List String → List String
  | [] => [x]
  | y :: ys => if le x y then x :: y :: ys else y :: insertLe le x ys

/-- Stable insertion sort for strings, modelling Python `sorted` on paths. -/
def isortLe (le : String → String → Bool) : List String → List String
  | [] => []
  | x :: xs => insertLe le x (isortLe le xs)

/-- Python `sorted` on a list of path names. -/
def sortStrings (l : List String) : List String := isortLe strLeB l

/-- Python `sorted` on a list of integers. -/
def sortInts (l : List Int) : List Int := List.insertionSort (· ≤ ·) l

/-- The character set of the Python string `'.athdf'`, as used by
`str.strip('.athdf')`. -/
def stripSet : List Char := [('.'), ('a'), ('t'), ('h'), ('d'), ('f')]

/-- Python `s.strip(chars)`: remove characters contained in `chars` from both
ends of the string. -/
def pyStrip (s : String) (chars : List Char) : String :=
  String.mk (((s.data.dropWhile (fun c => decide (c ∈ chars))).reverse.dropWhile
    (fun c => decide (c ∈ chars))).reverse)

/-- Python `s[-n:]`: the last `n` characters (the whole string if shorter). -/
def lastN (l : List Char) (n : Nat) : List Char := (l.reverse.take n).reverse

/-- Numeric value of a decimal digit character. -/
def digitVal (c : Char) : Nat := c.toNat - ('0').toNat

/-- Decimal value of a digit string. -/
def parseDigits (l : List Char) : Nat := l.foldl (fun a c => a * 10 + digitVal c) 0

/-- Python `int` on a character list: an optional sign followed by decimal
digits parses; everything else raises `ValueError` (`none`). -/
def pyIntChars : List Char → Option Int
  | [] => none
  | c :: rest =>
    if c = ('-') then
      if rest ≠ [] ∧ rest.all Char.isDigit then some (-(parseDigits rest : Int)) else none
    else if c = ('+') then
      if rest ≠ [] ∧ rest.all Char.isDigit then some ((parseDigits rest : Int)) else none
    else if (c :: rest).all Char.isDigit then some ((parseDigits (c :: rest) : Int)) else none

/-- Python `int(s)` on the strings arising here. -/
def pyInt (s : String) : Option Int := pyIntChars s.data

/-- The per-file index extraction `int(p.name.strip('.athdf')[-5:])`,
`none` when `int` would raise `ValueError`. -/
def athdfNum (nm : String) : Option Int :=
  pyInt (String.mk (lastN (pyStrip nm stripSet).data 5))

/-- Run the index extraction over every matched snapshot name, left to right,
raising `ValueError` at the first name whose tail is not an integer. -/
def extractAll : List String → Except PyErr (List Int)
  | [] => Except.ok []
  | n :: rest =>
    match athdfNum n with
    | none => Except.error PyErr.valueError
    | some v =>
      match extractAll rest with
      | Except.error e => Except.error e
      | Except.ok vs => Except.ok (v :: vs)

/-- Role resolution for `athinput` and `hst`: warn and keep the list on zero
or several matches, collapse to the single path on exactly one. -/
def resolveRole (ms : List String) (msgNone msgMany : String) :
    List String × FileSetEntry :=
  match ms with
  | [] => ([msgNone], FileSetEntry.paths ms)
  | [p] => ([], FileSetEntry.single p)
  | _ => ([msgMany], FileSetEntry.paths ms)

/-- The parsed configuration stored on the catalog, present only when the
`athinput` role resolved to a single path. -/
def athinputOpt (oracle : String → AthInput) : FileSetEntry → Option AthInput
  | FileSetEntry.single p => some (oracle p)
  | FileSetEntry.paths _ => none

/-- `problem_id`, present only when the `athinput` role resolved. -/
def problemIdOpt (oracle : String → AthInput) : FileSetEntry → Option String
  | FileSetEntry.single p => some ((oracle p).job_problem_id)
  | FileSetEntry.paths _ => none

/-- `mesh`, present only when the `athinput` role resolved. -/
def meshOpt (oracle : String → AthInput) : FileSetEntry → Option (List (String × String))
  | FileSetEntry.single p => some ((oracle p).mesh)
  | FileSetEntry.paths _ => none

/-- Split a character list at every occurrence of `sep`. -/
def splitChars (sep : Char) : List Char → List (List Char)
  | [] => [[]]
  | c :: rest =>
    if c = sep then [] :: splitChars sep rest
    else
      match splitChars sep rest with
      | [] => [[c]]
      | h :: t => (c :: h) :: t

/-- `Path(basedir).name`: the last nonempty `/`-separated component. -/
def pathName (s : String) : String :=
  String.mk (((splitChars ('/') s.data).filter (fun c => c ≠ [])).getLastD [])

/-- The `LoadSim` constructor.  Returns the warnings printed (in order)
together with either the constructed catalog or the exception `__init__`
raises.  `oracle` is the external `athinput` parser collaborator. -/
def LoadSim_init (basedir : String) (listing : List String)
    (oracle : String → AthInput) : List String × Except PyErr Catalog :=
  let finputS := sortStrings (globAthinputPat listing)
  let fhstS := sortStrings (globSuffixPat (".hst") listing)
  let rInput := resolveRole finputS ("WARNING: found no input file")
    ("WARNING: found more than one input file")
  let rHst := resolveRole fhstS ("WARNING: found no history dump")
    ("WARNING: found more than one history dumps")
  let warns := rInput.1 ++ rHst.1
  match extractAll (globSuffixPat (".athdf") listing) with
  | Except.error e => (warns, Except.error e)
  | Except.ok vals =>
    (warns, Except.ok {
      basedir := basedir
      basename := pathName basedir
      files_athinput := rInput.2
      files_hst := rHst.2
      files_athdf := FileSetEntry.paths (sortStrings (globSuffixPat (".athdf") listing))
      files_rst := FileSetEntry.paths (sortStrings (globSuffixPat (".rst") listing))
      athinput := athinputOpt oracle rInput.2
      problem_id := problemIdOpt oracle rInput.2
      mesh := meshOpt oracle rInput.2
      nums := sortInts vals })

/-- First two entries of a list, `none` when Python indexing `[0]`/`[1]`
would raise `IndexError`. -/
def firstTwo : List Rat → Option (Rat × Rat)
  | a :: b :: _ => some (a, b)
  | _ => none

/-- Python `dict(zip(ks, vs))` key order: first occurrence of each key.
(The value attached to a duplicated key is a lookup by that same key, hence
identical for every occurrence.) -/
def dedupFirst : List String → List String
  | [] => []
  | x :: xs => x :: (dedupFirst xs).filter (fun y => y != x)

/-- Schema projection of one decoded raw table into the labelled dataset, as
built by the `xr.Dataset(...)` call. -/
def athdf_to_dataset (dat : RawData) : Except PyErr Dataset :=
  match firstTwo dat.x1f, firstTwo dat.x2f, firstTwo dat.x3f,
      firstTwo dat.RootGridX1, firstTwo dat.RootGridX2, firstTwo dat.RootGridX3 with
  | some (f10, f11), some (f20, f21), some (f30, f31),
    some (r10, r11), some (r20, r21), some (r30, r31) =>
    Except.ok {
      coord_x := dat.x1v
      coord_y := dat.x2v
      coord_z := dat.x3v
      data_vars := (dedupFirst dat.VariableNames).map
        (fun v => (v, (["z", "y", "x"], dat.varData v)))
      attrs := [
        ("MaxLevel", AttrVal.i dat.MaxLevel),
        ("MeshBlockSize", AttrVal.li dat.MeshBlockSize),
        ("NumCycles", AttrVal.i dat.NumCycles),
        ("NumMeshBlocks", AttrVal.i dat.NumMeshBlocks),
        ("RootGridSize", AttrVal.li dat.RootGridSize),
        ("RootGridX1", AttrVal.lr dat.RootGridX1),
        ("RootGridX2", AttrVal.lr dat.RootGridX2),
        ("RootGridX3", AttrVal.lr dat.RootGridX3),
        ("time", AttrVal.r dat.Time),
        ("dx", AttrVal.r (f11 - f10)),
        ("dy", AttrVal.r (f21 - f20)),
        ("dz", AttrVal.r (f31 - f30)),
        ("x1min", AttrVal.r r10),
        ("x1max", AttrVal.r r11),
        ("x2min", AttrVal.r r20),
        ("x2max", AttrVal.r r21),
        ("x3min", AttrVal.r r30),
        ("x3max", AttrVal.r r31)] }
  | _, _, _, _, _, _ => Except.error PyErr.indexError

/-- Zero-padding of a digit list to width `w`. -/
def padZeros (l : List Char) (w : Nat) : List Char := List.replicate (w - l.length) ('0') ++ l

/-- Python `'{:05d}'.format(n)`. -/
def format05d (n : Int) : String :=
  if n < 0 then String.mk (('-') :: padZeros (toString n.natAbs).data 4)
  else String.mk (padZeros (toString n.natAbs).data 5)

/-- The glob suffix `'.{:05d}.athdf'.format(n)` used to resolve a snapshot. -/
def snapshotGlobPat (n : Int) : String := (".") ++ format05d n ++ (".athdf")

/-- The `load_athdf` method.  `decode` is the external `athdf` binary decoder
collaborator; `listing` is the current contents of `cat.basedir`.  The method
never assigns to `self`, which the explicit state passing records by returning
the catalog alongside the result. -/
def load_athdf (cat : Catalog) (listing : List String) (decode : String → RawData)
    (num : Option Int) : Catalog × Except PyErr Dataset :=
  (cat,
    match num with
    | none => Except.error PyErr.typeError
    | some n =>
      match globSuffixPat (snapshotGlobPat n) listing with
      | [] => Except.error PyErr.fileNotFound
      | [p] => athdf_to_dataset (decode p)
      | _ => Except.error (PyErr.exception ("Pattern matches more than one file")))

/-- Concrete mesh section used by the witness runs. -/
def meshW : List (String × String) := [("nx1", "2"), ("x1min", "0.0")]

/-- Concrete parsed configuration used by the witness runs. -/
def athinputW : AthInput := { job_problem_id := "blast", mesh := meshW }

/-- Concrete configuration-parser oracle for the witness runs. -/
def oracleW : String → AthInput := fun _ => athinputW

/-- Concrete 3-d array for the witness decoder. -/
def arrW : Arr := [[[1, 2], [3, 4]], [[5, 6], [7, 8]]]

/-- Concrete decoded raw table for the witness runs: a 2x2x2 unit box with
face coordinates `[0, 1/2, 1]` on every axis. -/
def rawW : RawData := {
  VariableNames := ["rho", "press"]
  varData := fun _ => arrW
  x1v := [1/4, 3/4]
  x2v := [1/4, 3/4]
  x3v := [1/4, 3/4]
  x1f := [0, 1/2, 1]
  x2f := [0, 1/2, 1]
  x3f := [0, 1/2, 1]
  MaxLevel := 0
  MeshBlockSize := [2, 2, 2]
  NumCycles := 10
  NumMeshBlocks := 1
  RootGridSize := [2, 2, 2]
  RootGridX1 := [0, 1]
  RootGridX2 := [0, 1]
  RootGridX3 := [0, 1]
  Time := 1/10 }

/-- Concrete binary-decoder oracle for the witness runs. -/
def decodeW : String → RawData := fun _ => rawW

/-- The dataset `load_athdf` produces from `rawW`. -/
def dsW : Dataset := {
  coord_x := [1/4, 3/4]
  coord_y := [1/4, 3/4]
  coord_z := [1/4, 3/4]
  data_vars := [("rho", (["z", "y", "x"], arrW)), ("press", (["z", "y", "x"], arrW))]
  attrs := [
    ("MaxLevel", AttrVal.i 0),
    ("MeshBlockSize", AttrVal.li [2, 2, 2]),
    ("NumCycles", AttrVal.i 10),
    ("NumMeshBlocks", AttrVal.i 1),
    ("RootGridSize", AttrVal.li [2, 2, 2]),
    ("RootGridX1", AttrVal.lr [0, 1]),
    ("RootGridX2", AttrVal.lr [0, 1]),
    ("RootGridX3", AttrVal.lr [0, 1]),
    ("time", AttrVal.r (1/10)),
    ("dx", AttrVal.r (1/2)),
    ("dy", AttrVal.r (1/2)),
    ("dz", AttrVal.r (1/2)),
    ("x1min", AttrVal.r 0),
    ("x1max", AttrVal.r 1),
    ("x2min", AttrVal.r 0),
    ("x2max", AttrVal.r 1),
    ("x3min", AttrVal.r 0),
    ("x3max", AttrVal.r 1)] }

/-- Concrete catalog for the witness load calls. -/
def catW : Catalog := {
  basedir := "/data/run1"
  basename := "run1"
  files_athinput := FileSetEntry.paths []
  files_hst := FileSetEntry.paths []
  files_athdf := FileSetEntry.paths ["blast.00007.athdf"]
  files_rst := FileSetEntry.paths []
  athinput := none
  problem_id := none
  mesh := none
  nums := [7] }

/-- Directory listing with exactly one match for snapshot 7. -/
def listW : List String := ["blast.00007.athdf"]

/-- Directory listing with two matches for snapshot 7. -/
def listW2 : List String := ["a.00007.athdf", "b.00007.athdf"]

/-- Directory listing for the witness discovery run: one config file, no
history dump, one snapshot. -/
def LW5 : List String := ["athinput.blast", "blast.00007.athdf"]

/-- The catalog discovery builds from `LW5`. -/
def cat5 : Catalog := {
  basedir := "/data/run1"
  basename := "run1"
  files_athinput := FileSetEntry.single ("athinput.blast")
  files_hst := FileSetEntry.paths []
  files_athdf := FileSetEntry.paths ["blast.00007.athdf"]
  files_rst := FileSetEntry.paths []
  athinput := some athinputW
  problem_id := some ("blast")
  mesh := some meshW
  nums := [7] }

/-! Helper lemmas about the index-extraction pipeline. -/

/-- A decimal digit is never one of the characters stripped by
`strip('.athdf')`. -/
theorem digit_not_strip {c : Char} (h : c.isDigit = true) :
    (decide (c ∈ stripSet)) = false := by
  rcases Bool.eq_false_or_eq_true (decide (c ∈ stripSet)) with ht | hf
  · exfalso
    have hmem : c ∈ stripSet := of_decide_eq_true ht
    fin_cases hmem <;> exact absurd h (by decide)
  · exact hf

/-- Left-stripping a well-formed snapshot name keeps the digit block and the
extension: the result is `M ++ ds ++ stripSet` for some remainder `M`. -/
theorem lstrip_form (preL ds : List Char) (hne : ds ≠ [])
    (hd : ∀ c ∈ ds, c.isDigit = true) :
    ∃ M, (preL ++ ('.') :: (ds ++ stripSet)).dropWhile (fun c => decide (c ∈ stripSet))
      = (M ++ ds) ++ stripSet := by
  have hd1 : (ds ++ stripSet).dropWhile (fun c => decide (c ∈ stripSet)) = ds ++ stripSet := by
    rcases ds with _ | ⟨d, ds2⟩
    · exact absurd rfl hne
    · exact List.dropWhile_cons_of_neg (by simp [digit_not_strip (hd d (by simp))])
  rcases hA : preL.dropWhile (fun c => decide (c ∈ stripSet)) with _ | ⟨a, A⟩
  · refine ⟨[], ?_⟩
    rw [List.dropWhile_append, hA]
    simp only [List.isEmpty_nil, if_true]
    rw [List.dropWhile_cons_of_pos (by decide), hd1]
    simp
  · refine ⟨(a :: A) ++ [('.')], ?_⟩
    rw [List.dropWhile_append, hA]
    simp only [List.isEmpty_cons, if_false]
    simp [List.append_assoc]

/-- Right-stripping removes exactly the `.athdf` extension when the string
ends with a digit block followed by that extension. -/
theorem rstrip_digits (M ds : List Char) (hne : ds ≠ [])
    (hd : ∀ c ∈ ds, c.isDigit = true) :
    (((M ++ ds) ++ stripSet).reverse.dropWhile (fun c => decide (c ∈ stripSet))).reverse
      = M ++ ds := by
  rw [List.reverse_append]
  rw [List.dropWhile_append_of_pos (by decide)]
  rw [List.reverse_append]
  rcases hrev : ds.reverse with _ | ⟨e, es⟩
  · exact absurd (by simpa using hrev) hne
  · have he : e ∈ ds := by
      have h1 : e ∈ ds.reverse := by rw [hrev]; simp
      simpa using h1
    rw [List.cons_append]
    rw [List.dropWhile_cons_of_neg (by simp [digit_not_strip (hd e he)])]
    rw [← List.cons_append]
    rw [List.reverse_append, List.reverse_reverse, ← hrev, List.reverse_reverse]

/-- The last five characters of `M ++ ds` are `ds` when `ds` has length 5. -/
theorem lastN_exact (M ds : List Char) (h5 : ds.length = 5) : lastN (M ++ ds) 5 = ds := by
  unfold lastN
  rw [List.reverse_append, ← h5, ← List.length_reverse, List.take_left]
  exact List.reverse_reverse ds

/-- `int` succeeds on a nonempty all-digit string and returns its decimal
value. -/
theorem pyInt_digits (ds : List Char) (hne : ds ≠ [])
    (hd : ∀ c ∈ ds, c.isDigit = true) :
    pyIntChars ds = some ((parseDigits ds : Nat) : Int) := by
  rcases ds with _ | ⟨c, rest⟩
  · exact absurd rfl hne
  · have hc : c.isDigit = true := hd c (by simp)
    have hcm : ¬ (c = ('-')) := by
      intro h; rw [h] at hc; exact absurd hc (by decide)
    have hcp : ¬ (c = ('+')) := by
      intro h; rw [h] at hc; exact absurd hc (by decide)
    have hall : (c :: rest).all Char.isDigit = true := List.all_eq_true.mpr hd
    simp only [pyIntChars, if_neg hcm, if_neg hcp, hall, if_pos]

/-- Extraction on a well-formed snapshot file name `<pre>.<ddddd>.athdf`
returns the decimal value of the five digits, whatever the `<pre>` part is. -/
theorem athdfNum_wf (preL ds : List Char) (h5 : ds.length = 5)
    (hd : ∀ c ∈ ds, c.isDigit = true) :
    athdfNum (String.mk (preL ++ ('.') :: (ds ++ stripSet))) =
      some ((parseDigits ds : Nat) : Int) := by
  have hne : ds ≠ [] := by intro h; rw [h] at h5; simp at h5
  obtain ⟨M, hM⟩ := lstrip_form preL ds hne hd
  show pyIntChars (lastN ((((preL ++ ('.') :: (ds ++ stripSet)).dropWhile
    (fun c => decide (c ∈ stripSet))).reverse.dropWhile
    (fun c => decide (c ∈ stripSet))).reverse) 5) = some ((parseDigits ds : Nat) : Int)
  rw [hM, rstrip_digits M ds hne hd, lastN_exact M ds h5]
  exact pyInt_digits ds hne hd

/-- A string of the form `<t><suf>` ends with `suf`. -/
theorem strEndsWith_mk (suf : String) (t : List Char) :
    strEndsWith suf (String.mk (t ++ suf.data)) = true :=
  decide_eq_true (List.suffix_append t suf.data)

/-- A name `<pre><mid><.athdf>` passes the `*.athdf` suffix test. -/
theorem strEndsWith_athdf_name (pre : String) (mid : List Char) :
    strEndsWith (".athdf") (String.mk (pre.data ++ (mid ++ (".athdf").data))) = true := by
  rw [← List.append_assoc]
  exact strEndsWith_mk (".athdf") (pre.data ++ mid)

/-- When every name in the list extracts, `extractAll` succeeds with the
mapped values. -/
theorem extractAll_all_some : ∀ {l : List String},
    (∀ n ∈ l, (athdfNum n).isSome = true) →
    extractAll l = Except.ok (l.map (fun n => (athdfNum n).getD 0))
  | [], _ => rfl
  | n :: rest, h => by
    have hn := h n (by simp)
    rcases hv : athdfNum n with _ | v
    · rw [hv] at hn; simp at hn
    · have ih := extractAll_all_some (fun m hm => h m (List.mem_cons_of_mem n hm))
      simp [extractAll, hv, ih]

/-- Unfolding of discovery when index extraction succeeds. -/
theorem LoadSim_init_eq_ok (bd : String) (listing : List String)
    (oracle : String → AthInput) (vals : List Int)
    (hE : extractAll (globSuffixPat (".athdf") listing) = Except.ok vals) :
    LoadSim_init bd listing oracle =
      ((resolveRole (sortStrings (globAthinputPat listing))
          ("WARNING: found no input file") ("WARNING: found more than one input file")).1 ++
        (resolveRole (sortStrings (globSuffixPat (".hst") listing))
          ("WARNING: found no history dump") ("WARNING: found more than one history dumps")).1,
        Except.ok {
          basedir := bd
          basename := pathName bd
          files_athinput := (resolveRole (sortStrings (globAthinputPat listing))
            ("WARNING: found no input file") ("WARNING: found more than one input file")).2
          files_hst := (resolveRole (sortStrings (globSuffixPat (".hst") listing))
            ("WARNING: found no history dump") ("WARNING: found more than one history dumps")).2
          files_athdf := FileSetEntry.paths (sortStrings (globSuffixPat (".athdf") listing))
          files_rst := FileSetEntry.paths (sortStrings (globSuffixPat (".rst") listing))
          athinput := athinputOpt oracle (resolveRole (sortStrings (globAthinputPat listing))
            ("WARNING: found no input file") ("WARNING: found more than one input file")).2
          problem_id := problemIdOpt oracle (resolveRole (sortStrings (globAthinputPat listing))
            ("WARNING: found no input file") ("WARNING: found more than one input file")).2
          mesh := meshOpt oracle (resolveRole (sortStrings (globAthinputPat listing))
            ("WARNING: found no input file") ("WARNING: found more than one input file")).2
          nums := sortInts vals }) := by
  simp [LoadSim_init, hE]

/-- Unfolding of discovery when index extraction raises. -/
theorem LoadSim_init_eq_err (bd : String) (listing : List String)
    (oracle : String → AthInput) (e : PyErr)
    (hE : extractAll (globSuffixPat (".athdf") listing) = Except.error e) :
    (LoadSim_init bd listing oracle).2 = Except.error e := by
  simp [LoadSim_init, hE]

/-- A successful load implies a unique glob match that was decoded. -/
theorem load_ok_unique_match {cat : Catalog} {listing : List String}
    {decode : String → RawData} {n : Int} {ds : Dataset}
    (h : (load_athdf cat listing decode (some n)).2 = Except.ok ds) :
    ∃ p, globSuffixPat (snapshotGlobPat n) listing = [p] ∧
      athdf_to_dataset (decode p) = Except.ok ds := by
  rcases hg : globSuffixPat (snapshotGlobPat n) listing with _ | ⟨p, _ | ⟨q, rest⟩⟩
  · rw [show (load_athdf cat listing decode (some n)).2
      = Except.error PyErr.fileNotFound from by simp [load_athdf, hg]] at h
    exact absurd h (by simp)
  · exact ⟨p, rfl, by
      rw [show (load_athdf cat listing decode (some n)).2
        = athdf_to_dataset (decode p) from by simp [load_athdf, hg]] at h
      exact h⟩
  · rw [show (load_athdf cat listing decode (some n)).2
      = Except.error (PyErr.exception ("Pattern matches more than one file"))
      from by simp [load_athdf, hg]] at h
    exact absurd h (by simp)

/-- A successful projection determines the whole dataset from the raw table. -/
theorem athdf_ok_elim {dat : RawData} {ds : Dataset}
    (h : athdf_to_dataset dat = Except.ok ds) :
    ∃ f10 f11 f20 f21 f30 f31 r10 r11 r20 r21 r30 r31,
      firstTwo dat.x1f = some (f10, f11) ∧ firstTwo dat.x2f = some (f20, f21) ∧
      firstTwo dat.x3f = some (f30, f31) ∧
      firstTwo dat.RootGridX1 = some (r10, r11) ∧
      firstTwo dat.RootGridX2 = some (r20, r21) ∧
      firstTwo dat.RootGridX3 = some (r30, r31) ∧
      ds = {
        coord_x := dat.x1v
        coord_y := dat.x2v
        coord_z := dat.x3v
        data_vars := (dedupFirst dat.VariableNames).map
          (fun v => (v, (["z", "y", "x"], dat.varData v)))
        attrs := [
          ("MaxLevel", AttrVal.i dat.MaxLevel),
          ("MeshBlockSize", AttrVal.li dat.MeshBlockSize),
          ("NumCycles", AttrVal.i dat.NumCycles),
          ("NumMeshBlocks", AttrVal.i dat.NumMeshBlocks),
          ("RootGridSize", AttrVal.li dat.RootGridSize),
          ("RootGridX1", AttrVal.lr dat.RootGridX1),
          ("RootGridX2", AttrVal.lr dat.RootGridX2),
          ("RootGridX3", AttrVal.lr dat.RootGridX3),
          ("time", AttrVal.r dat.Time),
          ("dx", AttrVal.r (f11 - f10)),
          ("dy", AttrVal.r (f21 - f20)),
          ("dz", AttrVal.r (f31 - f30)),
          ("x1min", AttrVal.r r10),
          ("x1max", AttrVal.r r11),
          ("x2min", AttrVal.r r20),
          ("x2max", AttrVal.r r21),
          ("x3min", AttrVal.r r30),
          ("x3max", AttrVal.r r31)] } := by
  rcases h1 : firstTwo dat.x1f with _ | ⟨f10, f11⟩
  · simp [athdf_to_dataset, h1] at h
  rcases h2 : firstTwo dat.x2f with _ | ⟨f20, f21⟩
  · simp [athdf_to_dataset, h1, h2] at h
  rcases h3 : firstTwo dat.x3f with _ | ⟨f30, f31⟩
  · simp [athdf_to_dataset, h1, h2, h3] at h
  rcases h4 : firstTwo dat.RootGridX1 with _ | ⟨r10, r11⟩
  · simp [athdf_to_dataset, h1, h2, h3, h4] at h
  rcases h5 : firstTwo dat.RootGridX2 with _ | ⟨r20, r21⟩
  · simp [athdf_to_dataset, h1, h2, h3, h4, h5] at h
  rcases h6 : firstTwo dat.RootGridX3 with _ | ⟨r30, r31⟩
  · simp [athdf_to_dataset, h1, h2, h3, h4, h5, h6] at h
  refine ⟨f10, f11, f20, f21, f30, f31, r10, r11, r20, r21, r30, r31,
    rfl, rfl, rfl, rfl, rfl, rfl, ?_⟩
  simp only [athdf_to_dataset, h1, h2, h3, h4, h5, h6] at h
  simpa using h.symm

/-! Claim theorems. -/

/-- Claim C1: for every catalog and integer index, `load_athdf` raises
`FileNotFoundError` when zero files match the 5-digit zero-padded index
pattern, raises a distinct plain `Exception` when more than one file matches,
and proceeds to decode exactly when one file matches; the two failure kinds
are distinguishable. -/
theorem claim_C1_load_resolution (cat : Catalog) (listing : List String)
    (decode : String → RawData) (n : Int) :
    (globSuffixPat (snapshotGlobPat n) listing = [] →
      (load_athdf cat listing decode (some n)).2 = Except.error PyErr.fileNotFound) ∧
    (∀ p, globSuffixPat (snapshotGlobPat n) listing = [p] →
      (load_athdf cat listing decode (some n)).2 = athdf_to_dataset (decode p)) ∧
    (1 < (globSuffixPat (snapshotGlobPat n) listing).length →
      (load_athdf cat listing decode (some n)).2 =
        Except.error (PyErr.exception ("Pattern matches more than one file"))) ∧
    (∀ msg, PyErr.fileNotFound ≠ PyErr.exception msg) := by
  refine ⟨?_, ?_, ?_, ?_⟩
  · intro h; simp [load_athdf, h]
  · intro p h; simp [load_athdf, h]
  · intro h
    rcases hg : globSuffixPat (snapshotGlobPat n) listing with _ | ⟨p, _ | ⟨q, rest⟩⟩
    · rw [hg] at h; simp at h
    · rw [hg] at h; simp at h
    · simp [load_athdf, hg]
  · intro msg hc; exact PyErr.noConfusion hc

/-- Witness for C1 at concrete directories: no match, one match, two
matches. -/
theorem claim_C1_witness :
    (load_athdf catW [] decodeW (some 7)).2 = Except.error PyErr.fileNotFound ∧
    (load_athdf catW listW decodeW (some 7)).2 =
      athdf_to_dataset (decodeW ("blast.00007.athdf")) ∧
    (load_athdf catW listW2 decodeW (some 7)).2 =
      Except.error (PyErr.exception ("Pattern matches more than one file")) :=
  ⟨(claim_C1_load_resolution catW [] decodeW 7).1 (by decide),
    (claim_C1_load_resolution catW listW decodeW 7).2.1 ("blast.00007.athdf") (by decide),
    (claim_C1_load_resolution catW listW2 decodeW 7).2.2.1 (by decide)⟩

/-- Claim C7: discovery on an empty directory never raises: all four role
entries are empty sequences, the config-derived fields are absent,
`snapshot_indices` is empty, and exactly the two missing-file warnings are
emitted. -/
theorem claim_C7_empty_dir (bd : String) (oracle : String → AthInput) :
    (LoadSim_init bd [] oracle).1 =
      ["WARNING: found no input file", "WARNING: found no history dump"] ∧
    (LoadSim_init bd [] oracle).2 = Except.ok {
      basedir := bd
      basename := pathName bd
      files_athinput := FileSetEntry.paths []
      files_hst := FileSetEntry.paths []
      files_athdf := FileSetEntry.paths []
      files_rst := FileSetEntry.paths []
      athinput := none
      problem_id := none
      mesh := none
      nums := [] } :=
  ⟨rfl, rfl⟩

/-- Claim C8: `load_athdf` leaves every field of the catalog unchanged,
whether it succeeds or fails. -/
theorem claim_C8_catalog_frame (cat : Catalog) (listing : List String)
    (decode : String → RawData) (num : Option Int) :
    (load_athdf cat listing decode num).1.basedir = cat.basedir ∧
    (load_athdf cat listing decode num).1.basename = cat.basename ∧
    (load_athdf cat listing decode num).1.files_athinput = cat.files_athinput ∧
    (load_athdf cat listing decode num).1.files_hst = cat.files_hst ∧
    (load_athdf cat listing decode num).1.files_athdf = cat.files_athdf ∧
    (load_athdf cat listing decode num).1.files_rst = cat.files_rst ∧
    (load_athdf cat listing decode num).1.athinput = cat.athinput ∧
    (load_athdf cat listing decode num).1.problem_id = cat.problem_id ∧
    (load_athdf cat listing decode num).1.mesh = cat.mesh ∧
    (load_athdf cat listing decode num).1.nums = cat.nums ∧
    (load_athdf cat listing decode num).1 = cat :=
  ⟨rfl, rfl, rfl, rfl, rfl, rfl, rfl, rfl, rfl, rfl, rfl⟩

/-- Claim C9: calling `load_athdf` without an index (default `None`) fails
with a formatting `TypeError` for every directory contents, before and
independently of any directory scan, and that failure is distinct from the
not-found and ambiguity failures. -/
theorem claim_C9_none_index (cat : Catalog) (listing : List String)
    (decode : String → RawData) :
    (load_athdf cat listing decode none).2 = Except.error PyErr.typeError ∧
    PyErr.typeError ≠ PyErr.fileNotFound ∧
    (∀ msg, PyErr.typeError ≠ PyErr.exception msg) :=
  ⟨rfl, by decide, fun msg hc => PyErr.noConfusion hc⟩

/-- Claim C10: index extraction is insensitive to the filename stem: for any
name `<pre>.<d1 d2 d3 d4 d5>.athdf` with five decimal digits, the stripping
step only removes extension characters at the two ends and the extracted
integer is the value of the five digits, whatever characters (including
`.athdf` characters) occur in `<pre>`. -/
theorem claim_C10_stem_insensitive (pre : String) (d1 d2 d3 d4 d5 : Char)
    (h1 : d1.isDigit = true) (h2 : d2.isDigit = true) (h3 : d3.isDigit = true)
    (h4 : d4.isDigit = true) (h5 : d5.isDigit = true) :
    athdfNum (pre ++ String.mk
        [('.'), d1, d2, d3, d4, d5, ('.'), ('a'), ('t'), ('h'), ('d'), ('f')]) =
      some ((parseDigits [d1, d2, d3, d4, d5] : Nat) : Int) := by
  have h := athdfNum_wf pre.data [d1, d2, d3, d4, d5] (by simp) ?_
  · exact h
  · intro c hc
    simp only [List.mem_cons, List.not_mem_nil, or_false] at hc
    rcases hc with rfl | rfl | rfl | rfl | rfl <;> assumption

/-- Witness for C10 at a stem that itself contains extension characters. -/
theorem claim_C10_witness :
    athdfNum (("data.th") ++ String.mk
        [('.'), ('0'), ('0'), ('0'), ('4'), ('2'), ('.'), ('a'), ('t'), ('h'), ('d'), ('f')]) =
      some 42 := by
  have h := claim_C10_stem_insensitive ("data.th") ('0') ('0') ('0') ('4') ('2')
    (by decide) (by decide) (by decide) (by decide) (by decide)
  rw [show ((parseDigits [('0'), ('0'), ('0'), ('4'), ('2')] : Nat) : Int) = 42 from by decide] at h
  exact h

/-- Claim C3: every successful load returns a dataset whose axes `x`, `y`,
`z` are the decoder's three cell-center coordinate arrays, whose data
variables are one per decoded field name over dims `(z, y, x)`, and whose
attribute keys are exactly the eighteen listed ones, in that order. -/
theorem claim_C3_dataset_shape {cat : Catalog} {listing : List String}
    {decode : String → RawData} {n : Int} {ds : Dataset}
    (h : (load_athdf cat listing decode (some n)).2 = Except.ok ds) :
    ds.attrs.map Prod.fst = ["MaxLevel", "MeshBlockSize", "NumCycles", "NumMeshBlocks",
      "RootGridSize", "RootGridX1", "RootGridX2", "RootGridX3", "time", "dx", "dy", "dz",
      "x1min", "x1max", "x2min", "x2max", "x3min", "x3max"] ∧
    ∃ p, globSuffixPat (snapshotGlobPat n) listing = [p] ∧
      ds.coord_x = (decode p).x1v ∧ ds.coord_y = (decode p).x2v ∧
      ds.coord_z = (decode p).x3v ∧
      ds.data_vars = (dedupFirst (decode p).VariableNames).map
        (fun v => (v, (["z", "y", "x"], (decode p).varData v))) := by
  obtain ⟨p, hp, hd⟩ := load_ok_unique_match h
  obtain ⟨f10, f11, f20, f21, f30, f31, r10, r11, r20, r21, r30, r31,
    h1, h2, h3, h4, h5, h6, hds⟩ := athdf_ok_elim hd
  subst hds
  exact ⟨rfl, p, hp, rfl, rfl, rfl, rfl⟩

/-- Witness for C3 at a concrete one-snapshot directory. -/
theorem claim_C3_witness :
    dsW.attrs.map Prod.fst = ["MaxLevel", "MeshBlockSize", "NumCycles", "NumMeshBlocks",
      "RootGridSize", "RootGridX1", "RootGridX2", "RootGridX3", "time", "dx", "dy", "dz",
      "x1min", "x1max", "x2min", "x2max", "x3min", "x3max"] :=
  (claim_C3_dataset_shape (show (load_athdf catW listW decodeW (some 7)).2 = Except.ok dsW by
    have hg : globSuffixPat (snapshotGlobPat 7) listW = [("blast.00007.athdf")] := by decide
    simp only [load_athdf, hg]
    show athdf_to_dataset rawW = Except.ok dsW
    norm_num [athdf_to_dataset, rawW, dsW, firstTwo, arrW, dedupFirst]
    decide)).1

/-- Claim C4: on every successful load, each cell-spacing attribute equals
the second minus the first entry of that axis's decoded face-coordinate
array, and `x1min`/`x1max` (likewise axes 2 and 3) equal the first and second
entries of the decoded `RootGridX1` (likewise 2 and 3) pair. -/
theorem claim_C4_spacing_extents {cat : Catalog} {listing : List String}
    {decode : String → RawData} {n : Int} {ds : Dataset}
    (h : (load_athdf cat listing decode (some n)).2 = Except.ok ds) :
    ∃ p, globSuffixPat (snapshotGlobPat n) listing = [p] ∧
    ∃ f10 f11 f20 f21 f30 f31 r10 r11 r20 r21 r30 r31,
      firstTwo (decode p).x1f = some (f10, f11) ∧
      firstTwo (decode p).x2f = some (f20, f21) ∧
      firstTwo (decode p).x3f = some (f30, f31) ∧
      firstTwo (decode p).RootGridX1 = some (r10, r11) ∧
      firstTwo (decode p).RootGridX2 = some (r20, r21) ∧
      firstTwo (decode p).RootGridX3 = some (r30, r31) ∧
      List.lookup ("dx") ds.attrs = some (AttrVal.r (f11 - f10)) ∧
      List.lookup ("dy") ds.attrs = some (AttrVal.r (f21 - f20)) ∧
      List.lookup ("dz") ds.attrs = some (AttrVal.r (f31 - f30)) ∧
      List.lookup ("x1min") ds.attrs = some (AttrVal.r r10) ∧
      List.lookup ("x1max") ds.attrs = some (AttrVal.r r11) ∧
      List.lookup ("x2min") ds.attrs = some (AttrVal.r r20) ∧
      List.lookup ("x2max") ds.attrs = some (AttrVal.r r21) ∧
      List.lookup ("x3min") ds.attrs = some (AttrVal.r r30) ∧
      List.lookup ("x3max") ds.attrs = some (AttrVal.r r31) := by
  obtain ⟨p, hp, hd⟩ := load_ok_unique_match h
  obtain ⟨f10, f11, f20, f21, f30, f31, r10, r11, r20, r21, r30, r31,
    h1, h2, h3, h4, h5, h6, hds⟩ := athdf_ok_elim hd
  subst hds
  exact ⟨p, hp, f10, f11, f20, f21, f30, f31, r10, r11, r20, r21, r30, r31,
    h1, h2, h3, h4, h5, h6, rfl, rfl, rfl, rfl, rfl, rfl, rfl, rfl, rfl⟩

/-- Witness for C4: the concrete decode has `x1f = [0, 1/2, 1]` and
`RootGridX1 = [0, 1]`, matching the specification's round-trip example. -/
theorem claim_C4_witness :
    ∃ p, globSuffixPat (snapshotGlobPat 7) listW = [p] ∧
    ∃ f10 f11 f20 f21 f30 f31 r10 r11 r20 r21 r30 r31,
      firstTwo (decodeW p).x1f = some (f10, f11) ∧
      firstTwo (decodeW p).x2f = some (f20, f21) ∧
      firstTwo (decodeW p).x3f = some (f30, f31) ∧
      firstTwo (decodeW p).RootGridX1 = some (r10, r11) ∧
      firstTwo (decodeW p).RootGridX2 = some (r20, r21) ∧
      firstTwo (decodeW p).RootGridX3 = some (r30, r31) ∧
      List.lookup ("dx") dsW.attrs = some (AttrVal.r (f11 - f10)) ∧
      List.lookup ("dy") dsW.attrs = some (AttrVal.r (f21 - f20)) ∧
      List.lookup ("dz") dsW.attrs = some (AttrVal.r (f31 - f30)) ∧
      List.lookup ("x1min") dsW.attrs = some (AttrVal.r r10) ∧
      List.lookup ("x1max") dsW.attrs = some (AttrVal.r r11) ∧
      List.lookup ("x2min") dsW.attrs = some (AttrVal.r r20) ∧
      List.lookup ("x2max") dsW.attrs = some (AttrVal.r r21) ∧
      List.lookup ("x3min") dsW.attrs = some (AttrVal.r r30) ∧
      List.lookup ("x3max") dsW.attrs = some (AttrVal.r r31) :=
  claim_C4_spacing_extents (show (load_athdf catW listW decodeW (some 7)).2 = Except.ok dsW by
    have hg : globSuffixPat (snapshotGlobPat 7) listW = [("blast.00007.athdf")] := by decide
    simp only [load_athdf, hg]
    show athdf_to_dataset rawW = Except.ok dsW
    norm_num [athdf_to_dataset, rawW, dsW, firstTwo, arrW, dedupFirst]
    decide)

/-- Claim C5: after discovery, the `athinput` and `hst` entries of `files`
are a bare single path exactly when the scan found exactly one match, and
remain the full sorted (possibly empty) match list otherwise, while the
`athdf` and `rst` entries always remain sequences. -/
theorem claim_C5_role_resolution {bd : String} {listing : List String}
    {oracle : String → AthInput} {cat : Catalog}
    (h : (LoadSim_init bd listing oracle).2 = Except.ok cat) :
    ((∃ p, cat.files_athinput = FileSetEntry.single p) ↔
      (sortStrings (globAthinputPat listing)).length = 1) ∧
    (∀ p, sortStrings (globAthinputPat listing) = [p] →
      cat.files_athinput = FileSetEntry.single p) ∧
    ((sortStrings (globAthinputPat listing)).length ≠ 1 →
      cat.files_athinput = FileSetEntry.paths (sortStrings (globAthinputPat listing))) ∧
    ((∃ p, cat.files_hst = FileSetEntry.single p) ↔
      (sortStrings (globSuffixPat (".hst") listing)).length = 1) ∧
    (∀ p, sortStrings (globSuffixPat (".hst") listing) = [p] →
      cat.files_hst = FileSetEntry.single p) ∧
    ((sortStrings (globSuffixPat (".hst") listing)).length ≠ 1 →
      cat.files_hst = FileSetEntry.paths (sortStrings (globSuffixPat (".hst") listing))) ∧
    cat.files_athdf = FileSetEntry.paths (sortStrings (globSuffixPat (".athdf") listing)) ∧
    cat.files_rst = FileSetEntry.paths (sortStrings (globSuffixPat (".rst") listing)) := by
  rcases hE : extractAll (globSuffixPat (".athdf") listing) with e | vals
  · rw [LoadSim_init_eq_err bd listing oracle e hE] at h
    exact absurd h (by simp)
  · rw [LoadSim_init_eq_ok bd listing oracle vals hE] at h
    simp only [Except.ok.injEq] at h
    subst h
    rcases hS1 : sortStrings (globAthinputPat listing) with _ | ⟨p, _ | ⟨q, r1⟩⟩ <;>
      rcases hS2 : sortStrings (globSuffixPat (".hst") listing) with _ | ⟨u, _ | ⟨w, r2⟩⟩ <;>
      simp [resolveRole]

/-- Witness for C5 at a directory with one config file and no history dump. -/
theorem claim_C5_witness :
    cat5.files_athinput = FileSetEntry.single ("athinput.blast") ∧
    cat5.files_hst = FileSetEntry.paths (sortStrings (globSuffixPat (".hst") LW5)) ∧
    cat5.files_athdf = FileSetEntry.paths (sortStrings (globSuffixPat (".athdf") LW5)) := by
  have hth := claim_C5_role_resolution
    (show (LoadSim_init ("/data/run1") LW5 oracleW).2 = Except.ok cat5 from by decide)
  exact ⟨hth.2.1 ("athinput.blast") (by decide),
    hth.2.2.2.2.2.1 (by decide), hth.2.2.2.2.2.2.1⟩

/-- Claim C6: after discovery, the parsed configuration, `problem_id` and
`mesh` attributes are present exactly when the `athinput` role resolved to a
single path, in which case `problem_id` is the job section's problem id and
`mesh` is the mesh section; otherwise all three are absent, with no error and
no default. -/
theorem claim_C6_config_fields {bd : String} {listing : List String}
    {oracle : String → AthInput} {cat : Catalog}
    (h : (LoadSim_init bd listing oracle).2 = Except.ok cat) :
    (cat.athinput.isSome ↔ (sortStrings (globAthinputPat listing)).length = 1) ∧
    (cat.problem_id.isSome ↔ (sortStrings (globAthinputPat listing)).length = 1) ∧
    (cat.mesh.isSome ↔ (sortStrings (globAthinputPat listing)).length = 1) ∧
    (∀ p, sortStrings (globAthinputPat listing) = [p] →
      cat.athinput = some (oracle p) ∧
      cat.problem_id = some ((oracle p).job_problem_id) ∧
      cat.mesh = some ((oracle p).mesh)) ∧
    ((sortStrings (globAthinputPat listing)).length ≠ 1 →
      cat.athinput = none ∧ cat.problem_id = none ∧ cat.mesh = none) := by
  rcases hE : extractAll (globSuffixPat (".athdf") listing) with e | vals
  · rw [LoadSim_init_eq_err bd listing oracle e hE] at h
    exact absurd h (by simp)
  · rw [LoadSim_init_eq_ok bd listing oracle vals hE] at h
    simp only [Except.ok.injEq] at h
    subst h
    rcases hS1 : sortStrings (globAthinputPat listing) with _ | ⟨p, _ | ⟨q, r1⟩⟩ <;>
      simp [resolveRole, athinputOpt, problemIdOpt, meshOpt]

/-- Witness for C6 at the same directory: `problem_id` and `mesh` come from
the parsed configuration. -/
theorem claim_C6_witness :
    cat5.problem_id = some ("blast") ∧ cat5.mesh = some meshW ∧
    cat5.athinput = some athinputW := by
  have hth := claim_C6_config_fields
    (show (LoadSim_init ("/data/run1") LW5 oracleW).2 = Except.ok cat5 from by decide)
  have hone := hth.2.2.2.1 ("athinput.blast") (by decide)
  exact ⟨hone.2.1, hone.2.2, hone.1⟩

/-- Claim C2: discovery extracts the 5-digit zero-padded integer before the
snapshot extension of every matching file and sorts ascending: a directory
holding snapshot files with indices 00000, 00003, 00010 — whatever their
stems and whatever order the filesystem lists them in — yields
`snapshot_indices = [0, 3, 10]`. -/
theorem claim_C2_snapshot_indices (bd : String) (oracle : String → AthInput)
    (listing : List String) (p1 p2 p3 : String)
    (hperm : listing.Perm
      [p1 ++ (".00000.athdf"), p2 ++ (".00003.athdf"), p3 ++ (".00010.athdf")]) :
    ∃ cat, (LoadSim_init bd listing oracle).2 = Except.ok cat ∧ cat.nums = [0, 3, 10] := by
  have hv1 : athdfNum (p1 ++ (".00000.athdf")) = some 0 := by
    have h := athdfNum_wf p1.data [('0'), ('0'), ('0'), ('0'), ('0')] (by decide)
      (by intro c hc; fin_cases hc <;> decide)
    rw [show ((parseDigits [('0'), ('0'), ('0'), ('0'), ('0')] : Nat) : Int) = 0
      from by decide] at h
    exact h
  have hv2 : athdfNum (p2 ++ (".00003.athdf")) = some 3 := by
    have h := athdfNum_wf p2.data [('0'), ('0'), ('0'), ('0'), ('3')] (by decide)
      (by intro c hc; fin_cases hc <;> decide)
    rw [show ((parseDigits [('0'), ('0'), ('0'), ('0'), ('3')] : Nat) : Int) = 3
      from by decide] at h
    exact h
  have hv3 : athdfNum (p3 ++ (".00010.athdf")) = some 10 := by
    have h := athdfNum_wf p3.data [('0'), ('0'), ('0'), ('1'), ('0')] (by decide)
      (by intro c hc; fin_cases hc <;> decide)
    rw [show ((parseDigits [('0'), ('0'), ('0'), ('1'), ('0')] : Nat) : Int) = 10
      from by decide] at h
    exact h
  have hp1 : strEndsWith (".athdf") (p1 ++ (".00000.athdf")) = true :=
    strEndsWith_athdf_name p1 [('.'), ('0'), ('0'), ('0'), ('0'), ('0')]
  have hp2 : strEndsWith (".athdf") (p2 ++ (".00003.athdf")) = true :=
    strEndsWith_athdf_name p2 [('.'), ('0'), ('0'), ('0'), ('0'), ('3')]
  have hp3 : strEndsWith (".athdf") (p3 ++ (".00010.athdf")) = true :=
    strEndsWith_athdf_name p3 [('.'), ('0'), ('0'), ('0'), ('1'), ('0')]
  have hfil : (globSuffixPat (".athdf") listing).Perm
      [p1 ++ (".00000.athdf"), p2 ++ (".00003.athdf"), p3 ++ (".00010.athdf")] := by
    have h := List.Perm.filter (fun nm => strEndsWith (".athdf") nm) hperm
    rw [show List.filter (fun nm => strEndsWith (".athdf") nm)
        [p1 ++ (".00000.athdf"), p2 ++ (".00003.athdf"), p3 ++ (".00010.athdf")]
      = [p1 ++ (".00000.athdf"), p2 ++ (".00003.athdf"), p3 ++ (".00010.athdf")] from by
        simp only [List.filter_cons, hp1, hp2, hp3, if_true, List.filter_nil]] at h
    exact h
  have hmem : ∀ m ∈ globSuffixPat (".athdf") listing, (athdfNum m).isSome = true := by
    intro m hm
    have h2 := hfil.mem_iff.mp hm
    simp only [List.mem_cons, List.not_mem_nil, or_false] at h2
    rcases h2 with rfl | rfl | rfl
    · rw [hv1]; rfl
    · rw [hv2]; rfl
    · rw [hv3]; rfl
  have hvals : ((globSuffixPat (".athdf") listing).map
      (fun m => (athdfNum m).getD 0)).Perm [0, 3, 10] := by
    have h := hfil.map (fun m => (athdfNum m).getD 0)
    rw [show List.map (fun m => (athdfNum m).getD 0)
        [p1 ++ (".00000.athdf"), p2 ++ (".00003.athdf"), p3 ++ (".00010.athdf")]
      = [0, 3, 10] from by simp [hv1, hv2, hv3]] at h
    exact h
  have hsort : sortInts ((globSuffixPat (".athdf") listing).map
      (fun m => (athdfNum m).getD 0)) = [0, 3, 10] := by
    refine List.eq_of_perm_of_sorted ((List.perm_insertionSort (· ≤ ·) _).trans hvals)
      (List.sorted_insertionSort (· ≤ ·) _) (by decide)
  have hinit := LoadSim_init_eq_ok bd listing oracle
    ((globSuffixPat (".athdf") listing).map (fun m => (athdfNum m).getD 0))
    (extractAll_all_some hmem)
  exact ⟨_, congrArg Prod.snd hinit, hsort⟩

/-- Witness for C2 at a shuffled concrete listing. -/
theorem claim_C2_witness :
    ∃ cat, (LoadSim_init ("/data/run1")
        ["b.00010.athdf", "a.00000.athdf", "c.00003.athdf"] oracleW).2 = Except.ok cat ∧
      cat.nums = [0, 3, 10] :=
  claim_C2_snapshot_indices ("/data/run1") oracleW
    ["b.00010.athdf", "a.00000.athdf", "c.00003.athdf"] ("a") ("c") ("b") (by decide)

end PyAthena
